import Mathlib

/-!
# Verification of the shipyard repository-metadata cache subsystem

Shallow embedding of the cache subsystem of `Michael-Obele/shipyard`:
`src/lib/server/cache-manager.ts` (Cache Manager / Cache Store operations),
`src/lib/server/github-batch.ts` (Upstream Fetcher + Refresh Orchestrator;
the repository holds two revisions of this module — the one at
`src/lib/server/github-batch.ts` and a later revision (unnamed source file)
that adds an empty-cluster guard and default-owner handling; the
orchestration logic of the two is identical, and `fetchClusterFromGitHub`
is embedded from the later revision), and the remote batch entry points.

Modelling conventions:
* Timestamps are integers in milliseconds since the epoch (JS `Date.getTime()`).
* The database table `repository_cache` is a list of records; lookups use
  `List.find?` on `clusterName` (the column carries a unique index, and all
  writes filter by `clusterName`, exactly as the drizzle queries do).
* Network and database effects are oracles passed in as parameters: the
  GraphQL response is abstracted as a per-cluster `FetchOutcome` (the items
  the response maps to, or the caught failure message), the presence of
  `GITHUB_TOKEN` is a `Bool`, and a database failure inside
  `setCachedRepositories` (the only manager operation that rethrows) is an
  `Option String`.
* JavaScript exceptions are `Except String`; `async` sequencing inside one
  request is ordinary sequencing.  Fire-and-forget background refreshes are
  collected as spawned tasks and run after the synchronous phase of a
  scheduling tick, which is the cooperative-event-loop reading of
  "triggers arriving in the same tick".
* Observable actions (network fetches, `status = 'refreshing'` writes,
  orchestrator invocations) are recorded in an event trace.
-/

/-- Cache status column: `'ok' | 'refreshing' | 'error'`
(varchar with default `'ok'` in the drizzle schema). -/
inductive Status where
  | ok
  | refreshing
  | error
deriving DecidableEq, Repr

/-- Repository item as produced by the fetcher and stored in `raw_data`
(`RepoData` in `cache-manager.ts`; the optional `color` field and the
index signature do not affect the cache logic and are omitted). -/
structure RepoData where
  id : String
  name : String
  url : String
  description : Option String
  stars : Nat
  language : Option String
  topics : List String
  updatedAt : String
deriving DecidableEq, Repr

/-- One row of the `repository_cache` table (drizzle schema:
`cluster_name` unique, `repo_names` json, `raw_data` json NOT NULL,
`fetched_at`, `expires_at`, `status` default `'ok'`, `last_error` nullable,
`error_count` integer NOT NULL default 0, `updated_at`). -/
structure CacheRecord where
  clusterName : String
  repoNames : List String
  rawData : List RepoData
  fetchedAt : Int
  expiresAt : Int
  status : Status
  lastError : Option String
  errorCount : Nat
  updatedAt : Int
deriving DecidableEq, Repr

/-- The `repository_cache` table. -/
abbrev Store := List CacheRecord

/-- `db.select().from(RepositoryCache).where(eq(clusterName, ...)).limit(1)`. -/
def dbSelect (db : Store) (clusterName : String) : Option CacheRecord :=
  db.find? (fun r => r.clusterName == clusterName)

/-- `db.update(RepositoryCache).set(...).where(eq(clusterName, ...))`:
updates matching rows in place, inserts nothing. -/
def updateCluster (db : Store) (clusterName : String)
    (f : CacheRecord → CacheRecord) : Store :=
  db.map (fun r => if r.clusterName == clusterName then f r else r)

/-- `db.update(RepositoryCache).set(...)` with no `where`: updates every row. -/
def updateAll (db : Store) (f : CacheRecord → CacheRecord) : Store :=
  db.map f

/-- `db.insert(...).values(...).onConflictDoUpdate(...)`: the atomic
insert-or-update used by `setCachedRepositories`. -/
def upsertCluster (db : Store) (clusterName : String) (r : CacheRecord) : Store :=
  if db.any (fun x => x.clusterName == clusterName) then
    db.map (fun x => if x.clusterName == clusterName then r else x)
  else
    db ++ [r]

/-- `const CACHE_TTL_HOURS = parseInt(process.env.REPO_CACHE_TTL ?? '6')`
with the environment variable unset. -/
def CACHE_TTL_HOURS : Nat := 6

/-- `const ERROR_THRESHOLD = 3`. -/
def ERROR_THRESHOLD : Nat := 3

/-- Hours to milliseconds (`h * 60 * 60 * 1000`). -/
def hoursToMs (h : Nat) : Int := (h : Int) * 3600000

/-- `getCachedRepositories` (cache-manager.ts): returns the record's
`rawData` regardless of expiration, `null` when no row exists.
`raw_data` is a NOT NULL json array column, so `(record.rawData) || null`
always yields the array (`[]` is truthy in JavaScript). -/
def getCachedRepositories (db : Store) (clusterName : String) :
    Option (List RepoData) :=
  match dbSelect db clusterName with
  | none => none
  | some record => some record.rawData

/-- `shouldRefreshCluster` (cache-manager.ts): true when no row exists;
false when `status === 'refreshing'`; false when `status === 'error'` and
`errorCount >= ERROR_THRESHOLD`; otherwise
`hoursSinceFetch > effectiveTTL`, which over exact arithmetic is
`now - fetchedAt > effectiveTTL` hours in milliseconds. -/
def shouldRefreshCluster (db : Store) (now : Int) (clusterName : String)
    (ttlHours : Option Nat) : Bool :=
  match dbSelect db clusterName with
  | none => true
  | some record =>
    if record.status = Status.refreshing then
      false
    else if record.status = Status.error ∧ record.errorCount ≥ ERROR_THRESHOLD then
      false
    else
      let effectiveTTL := ttlHours.getD CACHE_TTL_HOURS
      decide (now - record.fetchedAt > hoursToMs effectiveTTL)

/-- `setCachedRepositories` (cache-manager.ts): atomic upsert writing the
fresh payload, `fetchedAt = now`, `expiresAt = now + ttl`, `status = 'ok'`,
`errorCount = 0`, `lastError = null`, `updatedAt = now`. -/
def setCachedRepositories (db : Store) (now : Int) (clusterName : String)
    (repos : List RepoData) (ttlHours : Option Nat) : Store :=
  let effectiveTTL := ttlHours.getD CACHE_TTL_HOURS
  let expiresAt := now + hoursToMs effectiveTTL
  upsertCluster db clusterName
    { clusterName := clusterName
      repoNames := repos.map (·.name)
      rawData := repos
      fetchedAt := now
      expiresAt := expiresAt
      status := Status.ok
      errorCount := 0
      lastError := none
      updatedAt := now }

/-- `startCacheRefresh` (cache-manager.ts): `UPDATE ... SET status='refreshing'`
on the matching row; a plain update, so it writes nothing when no row exists. -/
def startCacheRefresh (db : Store) (clusterName : String) : Store :=
  updateCluster db clusterName (fun r => { r with status := Status.refreshing })

/-- `recordCacheError` (cache-manager.ts): no-op when the row is absent;
otherwise increments `errorCount`, sets `status` to `'error'` at the
threshold and to `'refreshing'` below it, and records `lastError` and
`updatedAt`. -/
def recordCacheError (db : Store) (now : Int) (clusterName : String)
    (errMsg : String) : Store :=
  match dbSelect db clusterName with
  | none => db
  | some record =>
    let newErrorCount := record.errorCount + 1
    let newStatus :=
      if newErrorCount ≥ ERROR_THRESHOLD then Status.error else Status.refreshing
    updateCluster db clusterName (fun r =>
      { r with
        status := newStatus
        lastError := some errMsg
        errorCount := newErrorCount
        updatedAt := now })

/-- `getStaleDataFallback` (cache-manager.ts): last known payload regardless
of freshness, `null` when no row exists. -/
def getStaleDataFallback (db : Store) (clusterName : String) :
    Option (List RepoData) :=
  match dbSelect db clusterName with
  | none => none
  | some record => some record.rawData

/-- `invalidateCache` (cache-manager.ts): rewrites `fetchedAt` to
`now() - interval '24 hours'` (and `updatedAt` to now) on the matching row,
or on every row when called without a cluster name; no row is deleted. -/
def invalidateCache (db : Store) (now : Int) (clusterName : Option String) :
    Store :=
  let f : CacheRecord → CacheRecord := fun r =>
    { r with fetchedAt := now - hoursToMs 24, updatedAt := now }
  match clusterName with
  | some c => updateCluster db c f
  | none => updateAll db f


/-- Outcome of the GraphQL network exchange for one cluster, abstracting
the external response: either the `RepoData` list the response mapping
produces (missing repositories already dropped) together with the optional
rate-limit snapshot, or the message of the caught failure (non-ok HTTP
status, GraphQL `errors`, or a network exception). -/
inductive FetchOutcome where
  | success (repos : List RepoData) (rateLimitRemaining : Option Nat)
  | failure (errMsg : String)
deriving DecidableEq, Repr

/-- Per-cluster network oracle. -/
abbrev NetOracle := String → FetchOutcome

/-- Return shape of `fetchClusterFromGitHub`:
`{ repos: RepoData[] | null; rateLimit: ...; error?: Error }`
(the rate-limit snapshot is dropped — no claim depends on it). -/
structure FetchResult where
  repos : Option (List RepoData)
  error : Option String
deriving DecidableEq, Repr

/-- Observable actions of the subsystem, recorded in traces. -/
inductive Event where
  /-- a network request to the GitHub GraphQL endpoint was issued -/
  | fetchCall (cluster : String)
  /-- `startCacheRefresh` wrote `status = 'refreshing'` -/
  | markRefreshing (cluster : String)
  /-- `getRepositoriesByCluster` (the Refresh Orchestrator) was invoked -/
  | orchCall (cluster : String)
deriving DecidableEq, Repr

/-- `fetchClusterFromGitHub` (github-batch.ts, later revision): throws when
`GITHUB_TOKEN` is unset; short-circuits an empty `repoNames` list to
`{ repos: [], rateLimit: null }` with no network request; otherwise issues
the network request and returns either the mapped repositories or the
caught failure as `{ repos: null, error }`.  The second component of the
result lists the network requests issued. -/
def fetchClusterFromGitHub (tokenPresent : Bool) (net : NetOracle)
    (clusterName : String) (repoNames : List String) :
    Except String (FetchResult × List Event) :=
  if !tokenPresent then
    Except.error "GITHUB_TOKEN environment variable is not set"
  else if repoNames.isEmpty then
    Except.ok ({ repos := some [], error := none }, [])
  else
    match net clusterName with
    | FetchOutcome.success repos _ =>
      Except.ok ({ repos := some repos, error := none }, [Event.fetchCall clusterName])
    | FetchOutcome.failure e =>
      Except.ok ({ repos := none, error := some e }, [Event.fetchCall clusterName])

/-- Caller-facing result shape of the Refresh Orchestrator:
`{ repos, cached, isStale, error? }`. -/
structure ClusterResult where
  repos : List RepoData
  cached : Bool
  isStale : Bool
  error : Option String
deriving DecidableEq, Repr

/-- Arguments of a spawned `refreshInBackground` task. -/
structure BgTask where
  clusterName : String
  repoNames : List String
deriving DecidableEq, Repr

/-- Static registry configuration: `registryConfig.groups`, as the mapping
from group id to its `repos` list (read-only data loaded from
`registry-config.ts`, passed as a parameter here). -/
abbrev RegistryConfig := List (String × List String)

/-- `registryConfig.groups.find((g) => g.id === clusterName)`. -/
def lookupCfg (cfg : RegistryConfig) (clusterName : String) :
    Option (List String) :=
  (cfg.find? (fun g => g.1 == clusterName)).map (·.2)

/-- Body of `getRepositoriesByCluster` (github-batch.ts) — everything inside
the outer `try`.  Returns the result (or the exception that reaches the
outer `catch`), the store after the synchronous phase, the spawned
background tasks, and the event trace of the synchronous phase.
`setFail` is the database-failure oracle for `setCachedRepositories`, the
one manager operation that rethrows. -/
def runClusterBody (cfg : RegistryConfig) (tokenPresent : Bool)
    (net : NetOracle) (setFail : Option String) (db : Store) (now : Int)
    (clusterName : String) (forceRefresh : Bool) :
    Except String ClusterResult × Store × List BgTask × List Event :=
  match lookupCfg cfg clusterName with
  | none =>
    (Except.ok
      { repos := [], cached := false, isStale := false,
        error := some ("Cluster \x22" ++ clusterName ++ "\x22 not found in registry") },
      db, [], [])
  | some repoNames =>
    let cached := getCachedRepositories db clusterName
    let needsRefresh := shouldRefreshCluster db now clusterName none
    match cached with
    | some c =>
      if !needsRefresh && !forceRefresh then
        -- cache hit and still valid
        (Except.ok { repos := c, cached := true, isStale := false, error := none },
          db, [], [])
      else if needsRefresh && !forceRefresh then
        -- cache hit but stale: respond immediately, spawn background refresh
        (Except.ok { repos := c, cached := true, isStale := true, error := none },
          db, [{ clusterName := clusterName, repoNames := repoNames }], [])
      else
        -- force refresh
        runMissPath cfg tokenPresent net setFail db now clusterName repoNames
    | none =>
      -- cache miss
      runMissPath cfg tokenPresent net setFail db now clusterName repoNames
where
  /-- The synchronous miss / force-refresh path: `startCacheRefresh`, then a
  blocking fetch, then commit or fall back to stale data. -/
  runMissPath (_cfg : RegistryConfig) (tokenPresent : Bool) (net : NetOracle)
      (setFail : Option String) (db : Store) (now : Int) (clusterName : String)
      (repoNames : List String) :
      Except String ClusterResult × Store × List BgTask × List Event :=
    let db₁ := startCacheRefresh db clusterName
    let evs₁ := [Event.markRefreshing clusterName]
    match fetchClusterFromGitHub tokenPresent net clusterName repoNames with
    | Except.error e => (Except.error e, db₁, [], evs₁)
    | Except.ok (fr, fetchEvs) =>
      match fr.error with
      | some e =>
        -- failed to fetch: try stale fallback (read before the error write,
        -- matching the source order)
        let staleData := getStaleDataFallback db₁ clusterName
        let db₂ := recordCacheError db₁ now clusterName e
        match staleData with
        | some s =>
          (Except.ok { repos := s, cached := true, isStale := true, error := some e },
            db₂, [], evs₁ ++ fetchEvs)
        | none =>
          (Except.ok { repos := [], cached := false, isStale := false, error := some e },
            db₂, [], evs₁ ++ fetchEvs)
      | none =>
        match fr.repos with
        | none =>
          (Except.ok
            { repos := [], cached := false, isStale := false,
              error := some "GitHub returned empty response" },
            db₁, [], evs₁ ++ fetchEvs)
        | some repos =>
          match setFail with
          | some e => (Except.error e, db₁, [], evs₁ ++ fetchEvs)
          | none =>
            (Except.ok { repos := repos, cached := false, isStale := false, error := none },
              setCachedRepositories db₁ now clusterName repos none, [], evs₁ ++ fetchEvs)

/-- Output of one orchestrator invocation. -/
structure RunOut where
  result : ClusterResult
  db : Store
  bg : List BgTask
  events : List Event
deriving Repr

/-- `getRepositoriesByCluster` (github-batch.ts): the body wrapped in the
outer `catch`, which converts any exception into
`{ repos: [], cached: false, isStale: false, error }`.  The trace starts
with the orchestrator-invocation event. -/
def getRepositoriesByCluster (cfg : RegistryConfig) (tokenPresent : Bool)
    (net : NetOracle) (setFail : Option String) (db : Store) (now : Int)
    (clusterName : String) (forceRefresh : Bool) : RunOut :=
  match runClusterBody cfg tokenPresent net setFail db now clusterName forceRefresh with
  | (Except.ok r, db', bg, evs) =>
    { result := r, db := db', bg := bg, events := Event.orchCall clusterName :: evs }
  | (Except.error e, db', bg, evs) =>
    { result := { repos := [], cached := false, isStale := false, error := some e }
      db := db', bg := bg, events := Event.orchCall clusterName :: evs }

/-- `refreshInBackground` (github-batch.ts): fetch, then `recordCacheError`
on failure or `setCachedRepositories` on success; every exception is
swallowed by the surrounding `try`/`catch` (and by the `.catch` at the
spawn site).  Note: it never calls `startCacheRefresh`. -/
def refreshInBackground (tokenPresent : Bool) (net : NetOracle)
    (setFail : Option String) (db : Store) (now : Int) (task : BgTask) :
    Store × List Event :=
  match fetchClusterFromGitHub tokenPresent net task.clusterName task.repoNames with
  | Except.error _ => (db, [])
  | Except.ok (fr, fetchEvs) =>
    match fr.error with
    | some e => (recordCacheError db now task.clusterName e, fetchEvs)
    | none =>
      match fr.repos with
      | some repos =>
        match setFail with
        | some _ => (db, fetchEvs)
        | none => (setCachedRepositories db now task.clusterName repos none, fetchEvs)
      | none => (db, fetchEvs)

/-- Run a list of spawned background tasks in order, threading the store. -/
def runBgTasks (tokenPresent : Bool) (net : NetOracle) (setFail : Option String)
    (now : Int) : Store → List BgTask → Store × List Event
  | db, [] => (db, [])
  | db, t :: ts =>
    let (db₁, evs₁) := refreshInBackground tokenPresent net setFail db now t
    let (db₂, evs₂) := runBgTasks tokenPresent net setFail now db₁ ts
    (db₂, evs₁ ++ evs₂)

/-- One cooperative scheduling tick with several requests for clusters:
each request runs its synchronous phase in turn (threading the store), and
the background tasks spawned during the tick run afterwards. -/
def runTick (cfg : RegistryConfig) (tokenPresent : Bool) (net : NetOracle)
    (setFail : Option String) (now : Int) (db : Store)
    (requests : List String) : Store × List Event :=
  let sync := requests.foldl
    (fun (acc : Store × List BgTask × List Event) name =>
      let out := getRepositoriesByCluster cfg tokenPresent net setFail acc.1 now name false
      (out.db, acc.2.1 ++ out.bg, acc.2.2 ++ out.events))
    (db, [], [])
  let (db', bgEvs) := runBgTasks tokenPresent net setFail now sync.1 sync.2.1
  (db', sync.2.2 ++ bgEvs)

/-- Entry shape produced by `resolveCluster` (projects.remote batch file):
`{ clusterName, repos, cached, isStale, error: message | null }`. -/
structure ResolveEntry where
  clusterName : String
  repos : List RepoData
  cached : Bool
  isStale : Bool
  error : Option String
deriving DecidableEq, Repr

/-- `resolveCluster` (repository remote-function file): one orchestrator
invocation wrapped into the per-cluster entry. -/
def resolveCluster (cfg : RegistryConfig) (tokenPresent : Bool)
    (net : NetOracle) (setFail : Option String) (db : Store) (now : Int)
    (clusterName : String) : ResolveEntry × Store × List BgTask × List Event :=
  let out := getRepositoriesByCluster cfg tokenPresent net setFail db now clusterName false
  ({ clusterName := clusterName
     repos := out.result.repos
     cached := out.result.cached
     isStale := out.result.isStale
     error := out.result.error },
    out.db, out.bg, out.events)

/-- Output of `getRepositoriesBatchRemote`:
`{ clusters, timestamp, totalRepos }` plus the threaded store, the
background tasks spawned during the batch, and the event trace. -/
structure BatchOut where
  clusters : List ResolveEntry
  totalRepos : Nat
  db : Store
  bg : List BgTask
  events : List Event
deriving Repr

/-- `getRepositoriesBatchRemote` (repository remote-function file):
`clusterNames.map((name) => resolveCluster(name))` — one resolver call per
list element, with no deduplication of repeated names.  `Promise.all` over
calls that share the single store is modelled as left-to-right sequencing;
background tasks spawned by stale hits run only after the tick.
`batchRemoteStep` is one step of that fold. -/
def batchRemoteStep (cfg : RegistryConfig) (tokenPresent : Bool)
    (net : NetOracle) (setFail : Option String) (now : Int)
    (acc : List ResolveEntry × Store × List BgTask × List Event)
    (name : String) : List ResolveEntry × Store × List BgTask × List Event :=
  let (entry, db', bg, evs) :=
    resolveCluster cfg tokenPresent net setFail acc.2.1 now name
  (acc.1 ++ [entry], db', acc.2.2.1 ++ bg, acc.2.2.2 ++ evs)

/-- `getRepositoriesBatchRemote`, the fold over `batchRemoteStep`. -/
def getRepositoriesBatchRemote (cfg : RegistryConfig) (tokenPresent : Bool)
    (net : NetOracle) (setFail : Option String) (db : Store) (now : Int)
    (clusterNames : List String) : BatchOut :=
  let folded := clusterNames.foldl
    (batchRemoteStep cfg tokenPresent net setFail now) ([], db, [], [])
  { clusters := folded.1
    totalRepos := (folded.1.map (fun e => e.repos.length)).sum
    db := folded.2.1
    bg := folded.2.2.1
    events := folded.2.2.2 }

/-- `fetchRepositoriesBatch` (github-batch.ts): maps every list element
through `getRepositoriesByCluster` (no deduplication) and collects
non-empty results into a map keyed by name (`Map.set`, so a later
duplicate overwrites the earlier entry).  Same sequencing model as the
remote batch; `fetchBatchStep` is one step of the fold. -/
def fetchBatchStep (cfg : RegistryConfig) (tokenPresent : Bool)
    (net : NetOracle) (setFail : Option String) (now : Int)
    (acc : List (String × List RepoData) × Store × List BgTask × List Event)
    (name : String) :
    List (String × List RepoData) × Store × List BgTask × List Event :=
  let out := getRepositoriesByCluster cfg tokenPresent net setFail acc.2.1 now name false
  let results :=
    if out.result.repos.length > 0 then
      if acc.1.any (fun kv => kv.1 == name) then
        acc.1.map (fun kv => if kv.1 == name then (name, out.result.repos) else kv)
      else
        acc.1 ++ [(name, out.result.repos)]
    else acc.1
  (results, out.db, acc.2.2.1 ++ out.bg, acc.2.2.2 ++ out.events)

/-- `fetchRepositoriesBatch`, the fold over `fetchBatchStep`. -/
def fetchRepositoriesBatch (cfg : RegistryConfig) (tokenPresent : Bool)
    (net : NetOracle) (setFail : Option String) (db : Store) (now : Int)
    (clusterNames : List String) :
    List (String × List RepoData) × Store × List BgTask × List Event :=
  clusterNames.foldl (fetchBatchStep cfg tokenPresent net setFail now) ([], db, [], [])

/-! ## Store lemmas -/

/-- A record found by `dbSelect` carries the looked-up cluster name. -/
theorem dbSelect_clusterName {db : Store} {k : String} {r : CacheRecord}
    (h : dbSelect db k = some r) : r.clusterName = k := by
  unfold dbSelect at h
  exact eq_of_beq (@List.find?_some _ (fun x => x.clusterName == k) r db h)

/-- `dbSelect` after a keyed update, for updates preserving `clusterName`. -/
theorem dbSelect_updateCluster (db : Store) (name k : String)
    (f : CacheRecord → CacheRecord)
    (hf : ∀ r, (f r).clusterName = r.clusterName) :
    dbSelect (updateCluster db name f) k
      = (dbSelect db k).map (fun r => if r.clusterName == name then f r else r) := by
  induction db with
  | nil => rfl
  | cons a l ih =>
    unfold dbSelect updateCluster at ih ⊢
    simp only [List.map_cons]
    by_cases h1 : (a.clusterName == name) = true
    · rw [if_pos h1]
      by_cases h2 : (a.clusterName == k) = true
      · rw [@List.find?_cons_of_pos _ (fun r => r.clusterName == k) (f a) _
              (by show ((f a).clusterName == k) = true; rw [hf]; exact h2),
            @List.find?_cons_of_pos _ (fun r => r.clusterName == k) a l h2]
        have h1e := eq_of_beq h1
        simp [h1e]
      · rw [@List.find?_cons_of_neg _ (fun r => r.clusterName == k) (f a) _
              (by show ¬((f a).clusterName == k) = true; rw [hf]; exact h2),
            @List.find?_cons_of_neg _ (fun r => r.clusterName == k) a l h2]
        exact ih
    · rw [if_neg h1]
      by_cases h2 : (a.clusterName == k) = true
      · rw [@List.find?_cons_of_pos _ (fun r => r.clusterName == k) a
              (List.map _ l) h2,
            @List.find?_cons_of_pos _ (fun r => r.clusterName == k) a l h2]
        have h1e : ¬ a.clusterName = name :=
          fun hh => h1 (by rw [hh]; exact beq_self_eq_true name)
        simp [h1e]
      · rw [@List.find?_cons_of_neg _ (fun r => r.clusterName == k) a
              (List.map _ l) h2,
            @List.find?_cons_of_neg _ (fun r => r.clusterName == k) a l h2]
        exact ih

/-- `dbSelect` after an unkeyed update, for updates preserving `clusterName`. -/
theorem dbSelect_updateAll (db : Store) (k : String)
    (f : CacheRecord → CacheRecord)
    (hf : ∀ r, (f r).clusterName = r.clusterName) :
    dbSelect (updateAll db f) k = (dbSelect db k).map f := by
  induction db with
  | nil => rfl
  | cons a l ih =>
    unfold dbSelect updateAll at ih ⊢
    simp only [List.map_cons]
    by_cases h2 : (a.clusterName == k) = true
    · rw [@List.find?_cons_of_pos _ (fun r => r.clusterName == k) (f a) _
            (by show ((f a).clusterName == k) = true; rw [hf]; exact h2),
          @List.find?_cons_of_pos _ (fun r => r.clusterName == k) a l h2]
      simp
    · rw [@List.find?_cons_of_neg _ (fun r => r.clusterName == k) (f a) _
            (by show ¬((f a).clusterName == k) = true; rw [hf]; exact h2),
          @List.find?_cons_of_neg _ (fun r => r.clusterName == k) a l h2]
      exact ih

/-- A missing key means no row matches. -/
theorem any_eq_false_of_dbSelect_eq_none {db : Store} {k : String}
    (h : dbSelect db k = none) :
    db.any (fun x => x.clusterName == k) = false := by
  unfold dbSelect at h
  rw [List.find?_eq_none] at h
  simp only [List.any_eq_false]
  exact h

/-- Upserting into a store that has no row for the key appends the row,
and a subsequent lookup finds it. -/
theorem dbSelect_upsertCluster_self {db : Store} {name : String}
    {r : CacheRecord} (hnone : dbSelect db name = none)
    (hr : r.clusterName = name) :
    dbSelect (upsertCluster db name r) name = some r := by
  unfold upsertCluster
  rw [any_eq_false_of_dbSelect_eq_none hnone, if_neg (by decide)]
  unfold dbSelect at hnone ⊢
  rw [List.find?_append, hnone, Option.none_or]
  simp [List.find?, hr]

/-- `hoursToMs` is strictly monotone. -/
theorem hoursToMs_lt {a b : Nat} : hoursToMs a < hoursToMs b ↔ a < b := by
  unfold hoursToMs
  constructor
  · intro h
    exact_mod_cast lt_of_mul_lt_mul_right h (by norm_num)
  · intro h
    exact mul_lt_mul_of_pos_right (by exact_mod_cast h) (by norm_num)

/-! ## Concrete fixtures -/

/-- A sample repository item. -/
def repoA : RepoData :=
  { id := "R_1", name := "r1", url := "https://github.com/Michael-Obele/r1"
    description := none, stars := 5, language := some "TypeScript"
    topics := ["svelte"], updatedAt := "2025-01-01T00:00:00Z" }

/-- A second sample repository item (fresh upstream data). -/
def repoB : RepoData :=
  { id := "R_1", name := "r1", url := "https://github.com/Michael-Obele/r1"
    description := some "updated", stars := 9, language := some "TypeScript"
    topics := ["svelte", "cache"], updatedAt := "2025-02-01T00:00:00Z" }

/-- A healthy record fetched at time 0 (stale once 6 hours have passed). -/
def recStaleOk : CacheRecord :=
  { clusterName := "cinder", repoNames := ["r1"], rawData := [repoA]
    fetchedAt := 0, expiresAt := 21600000, status := Status.ok
    lastError := none, errorCount := 0, updatedAt := 0 }

/-- A record in the error-backoff state: `status = 'error'`, three failures. -/
def recError3 : CacheRecord :=
  { clusterName := "cinder", repoNames := ["r1"], rawData := [repoA]
    fetchedAt := 0, expiresAt := 21600000, status := Status.error
    lastError := some "GraphQL error: boom", errorCount := 3, updatedAt := 0 }

/-- A record whose refresh is (nominally) in flight. -/
def recRefreshing : CacheRecord :=
  { clusterName := "cinder", repoNames := ["r1"], rawData := [repoA]
    fetchedAt := 90000000000, expiresAt := 90021600000
    status := Status.refreshing, lastError := none, errorCount := 0
    updatedAt := 90000000000 }

/-- 7 hours past time 0, in milliseconds: one hour past the default TTL. -/
def t7h : Int := 25200000

/-- Registry configuration with the single cluster `cinder`. -/
def cfgCinder : RegistryConfig := [("cinder", ["r1"])]

/-- Network oracle: every request succeeds and maps to `[repoB]`. -/
def netOk : NetOracle := fun _ => FetchOutcome.success [repoB] (some 4999)

/-- Network oracle: every request fails with an HTTP 500. -/
def netFail : NetOracle := fun _ =>
  FetchOutcome.failure "GitHub API returned 500: Internal Server Error"

/-! ## C2 — freshness check -/

/-- Modelled from the words of claim C2 (spec §4.3): true when no record
exists, false when `status == refreshing`, otherwise
`now - fetchedAt > ttl` — with no other branch. -/
def shouldRefreshClaimed (db : Store) (now : Int) (clusterName : String)
    (ttlHours : Option Nat) : Bool :=
  match dbSelect db clusterName with
  | none => true
  | some record =>
    if record.status = Status.refreshing then
      false
    else
      decide (now - record.fetchedAt > hoursToMs (ttlHours.getD CACHE_TTL_HOURS))

/-- The freshness check as the amended claim describes it: true when no
record exists; false when `status == refreshing`; false when
`status == error` and `errorCount` has reached the threshold; otherwise
`now - fetchedAt > ttl`. -/
def shouldRefreshAmended (db : Store) (now : Int) (clusterName : String)
    (ttlHours : Option Nat) : Bool :=
  match dbSelect db clusterName with
  | none => true
  | some record =>
    match record.status with
    | Status.refreshing => false
    | Status.error =>
      if record.errorCount ≥ ERROR_THRESHOLD then
        false
      else
        decide (now - record.fetchedAt > hoursToMs (ttlHours.getD CACHE_TTL_HOURS))
    | Status.ok =>
      decide (now - record.fetchedAt > hoursToMs (ttlHours.getD CACHE_TTL_HOURS))

/-- C2 counterexample: a record with `status = 'error'` and
`errorCount = 3` whose data is older than the TTL.  The claim's
description demands `True` (the record exists, its status is not
`'refreshing'`, and `now - fetchedAt > ttl`), but `shouldRefreshCluster`
returns `False` because of the error-backoff branch the claim omits. -/
theorem C2_counterexample :
    dbSelect [recError3] "cinder" = some recError3 ∧
    recError3.status ≠ Status.refreshing ∧
    t7h - recError3.fetchedAt > hoursToMs CACHE_TTL_HOURS ∧
    shouldRefreshClaimed [recError3] t7h "cinder" none = true ∧
    shouldRefreshCluster [recError3] t7h "cinder" none = false := by
  decide

/-- C2 (amended): for every store, time, cluster key and TTL,
`shouldRefreshCluster` returns true iff no record exists, false when the
record's status is `'refreshing'`, false when the status is `'error'`
with `errorCount` at or above the threshold (3), and otherwise the truth
value of `now - fetchedAt > ttl`. -/
theorem C2_freshness_check (db : Store) (now : Int) (clusterName : String)
    (ttlHours : Option Nat) :
    shouldRefreshCluster db now clusterName ttlHours =
      shouldRefreshAmended db now clusterName ttlHours := by
  unfold shouldRefreshCluster shouldRefreshAmended
  cases dbSelect db clusterName with
  | none => rfl
  | some record =>
    cases hs : record.status <;> simp [hs]

/-! ## C3 — failures never touch the payload -/

/-- C3: for every existing cache record, `recordCacheError` leaves
`rawData` (and `repoNames`, `fetchedAt`, `expiresAt`, `clusterName`)
untouched — a failed fetch never destroys previously cached data; the
update only writes `status`, `lastError`, `errorCount` and `updatedAt`,
and rows of other clusters are untouched. -/
theorem C3_no_payload_mutation (db : Store) (now : Int) (name msg : String)
    (rec : CacheRecord) (hsel : dbSelect db name = some rec) :
    ∃ rec', dbSelect (recordCacheError db now name msg) name = some rec' ∧
      rec'.rawData = rec.rawData ∧
      rec'.repoNames = rec.repoNames ∧
      rec'.fetchedAt = rec.fetchedAt ∧
      rec'.expiresAt = rec.expiresAt ∧
      rec'.clusterName = rec.clusterName ∧
      rec'.status = (if rec.errorCount + 1 ≥ ERROR_THRESHOLD then Status.error
        else Status.refreshing) ∧
      rec'.lastError = some msg ∧
      rec'.errorCount = rec.errorCount + 1 ∧
      rec'.updatedAt = now ∧
      ∀ k, k ≠ name →
        dbSelect (recordCacheError db now name msg) k = dbSelect db k := by
  unfold recordCacheError
  rw [hsel]
  dsimp only
  have hname := dbSelect_clusterName hsel
  refine ⟨{ rec with
      status := if rec.errorCount + 1 ≥ ERROR_THRESHOLD then Status.error
        else Status.refreshing
      lastError := some msg
      errorCount := rec.errorCount + 1
      updatedAt := now }, ?_, rfl, rfl, rfl, rfl, rfl, rfl, rfl, rfl, rfl, ?_⟩
  · rw [dbSelect_updateCluster db name name
      (fun r =>
        { r with
          status := if rec.errorCount + 1 ≥ ERROR_THRESHOLD then Status.error
            else Status.refreshing
          lastError := some msg
          errorCount := rec.errorCount + 1
          updatedAt := now })
      (fun _ => rfl), hsel]
    simp [hname]
  · intro k hk
    rw [dbSelect_updateCluster db name k
      (fun r =>
        { r with
          status := if rec.errorCount + 1 ≥ ERROR_THRESHOLD then Status.error
            else Status.refreshing
          lastError := some msg
          errorCount := rec.errorCount + 1
          updatedAt := now })
      (fun _ => rfl)]
    cases hdk : dbSelect db k with
    | none => rfl
    | some r =>
      have hrk := dbSelect_clusterName hdk
      have hne : ¬ r.clusterName = name := fun hh => hk (hrk.symm.trans hh)
      simp [hne]

/-- C3 witness: the theorem evaluated on a concrete store with a stale
healthy record. -/
theorem C3_witness :
    ∃ rec', dbSelect (recordCacheError [recStaleOk] t7h "cinder" "boom")
        "cinder" = some rec' ∧
      rec'.rawData = recStaleOk.rawData ∧
      rec'.repoNames = recStaleOk.repoNames ∧
      rec'.fetchedAt = recStaleOk.fetchedAt ∧
      rec'.expiresAt = recStaleOk.expiresAt ∧
      rec'.clusterName = recStaleOk.clusterName ∧
      rec'.status = (if recStaleOk.errorCount + 1 ≥ ERROR_THRESHOLD then
        Status.error else Status.refreshing) ∧
      rec'.lastError = some "boom" ∧
      rec'.errorCount = recStaleOk.errorCount + 1 ∧
      rec'.updatedAt = t7h ∧
      ∀ k, k ≠ "cinder" →
        dbSelect (recordCacheError [recStaleOk] t7h "cinder" "boom") k =
          dbSelect [recStaleOk] k :=
  C3_no_payload_mutation [recStaleOk] t7h "cinder" "boom" recStaleOk (by decide)

/-! ## C6 — sub-threshold failures wedge the record -/

/-- C6: the code-bug evidence.  A healthy stale record (`status = 'ok'`,
`errorCount = 0`, data 7 hours old with a 6-hour TTL) is due for refresh;
after one `recordCacheError` the error count and `lastError` are recorded
as the claim says, but the status becomes `'refreshing'`, and the next
freshness check returns `false` — no new refresh attempt can be triggered
by the freshness check, contradicting "leaves the record in a recoverable
status". -/
theorem C6_code_bug :
    shouldRefreshCluster [recStaleOk] t7h "cinder" none = true ∧
    (dbSelect (recordCacheError [recStaleOk] t7h "cinder" "fetch failed")
        "cinder").map (fun r => (r.errorCount, r.status, r.lastError)) =
      some (1, Status.refreshing, some "fetch failed") ∧
    shouldRefreshCluster (recordCacheError [recStaleOk] t7h "cinder" "fetch failed")
        t7h "cinder" none = false := by
  decide

/-! ## C8 — empty member list short-circuits -/

/-- C8: a cluster with an empty member-name list resolves to
`{ repos: [], error: none }` without any network request (the event list
is empty and the network oracle is never consulted), for every network
oracle, provided `GITHUB_TOKEN` is present. -/
theorem C8_empty_member_short_circuit (net : NetOracle) (clusterName : String) :
    fetchClusterFromGitHub true net clusterName [] =
      Except.ok ({ repos := some [], error := none }, []) := by
  rfl

/-! ## C4 — invalidation -/

/-- C4 counterexample: invalidation does not guarantee staleness "for any
configured TTL and record status".  First input: a record with
`status = 'refreshing'` — immediately after `invalidateCache` the
freshness check still returns `false` (TTL 6h).  Second input: a healthy
record checked with a configured TTL of 24 hours — `invalidateCache`
rewinds `fetchedAt` by exactly 24 hours, which does not exceed the TTL,
so the check returns `false`. -/
theorem C4_counterexample :
    shouldRefreshCluster
        (invalidateCache [recRefreshing] 90003600000 (some "cinder"))
        90003600000 "cinder" (some 6) = false ∧
    shouldRefreshCluster (invalidateCache [recStaleOk] t7h (some "cinder"))
        t7h "cinder" (some 24) = false := by
  decide

/-- C4 (amended): for every cluster key whose record exists with a status
that is neither `'refreshing'` nor error-backoff (`'error'` with
`errorCount` at the threshold), and every configured TTL below 24 hours,
`invalidateCache` (both the single-key and the invalidate-all variant)
rewrites `fetchedAt` 24 hours into the past so that the next freshness
check reports stale, while the record and its payload survive (no row
deletion, `rawData`, `status` and `errorCount` unchanged). -/
theorem C4_invalidation (db : Store) (now : Int) (name : String)
    (ttlHours : Option Nat) (rec : CacheRecord)
    (hsel : dbSelect db name = some rec)
    (hstat : rec.status ≠ Status.refreshing)
    (herr : rec.status = Status.error → rec.errorCount < ERROR_THRESHOLD)
    (httl : ttlHours.getD CACHE_TTL_HOURS < 24) :
    (shouldRefreshCluster (invalidateCache db now (some name)) now name
        ttlHours = true ∧
      ∃ rec', dbSelect (invalidateCache db now (some name)) name = some rec' ∧
        rec'.rawData = rec.rawData ∧ rec'.status = rec.status ∧
        rec'.errorCount = rec.errorCount ∧
        rec'.fetchedAt = now - hoursToMs 24) ∧
    (shouldRefreshCluster (invalidateCache db now none) now name
        ttlHours = true ∧
      ∃ rec', dbSelect (invalidateCache db now none) name = some rec' ∧
        rec'.rawData = rec.rawData ∧ rec'.status = rec.status ∧
        rec'.errorCount = rec.errorCount ∧
        rec'.fetchedAt = now - hoursToMs 24) := by
  have hname := dbSelect_clusterName hsel
  have hlt : hoursToMs (ttlHours.getD CACHE_TTL_HOURS) < hoursToMs 24 :=
    hoursToMs_lt.mpr httl
  constructor
  · have hupd := dbSelect_updateCluster db name name
      (fun r => { r with fetchedAt := now - hoursToMs 24, updatedAt := now })
      (fun _ => rfl)
    rw [hsel] at hupd
    simp only [Option.map_some', hname, beq_self_eq_true, eq_self_iff_true,
      if_true] at hupd
    unfold invalidateCache
    dsimp only
    constructor
    · unfold shouldRefreshCluster
      rw [hupd]
      dsimp only
      rw [if_neg hstat, if_neg (fun hc => absurd hc.2 (not_le.mpr (herr hc.1)))]
      simp only [decide_eq_true_eq]
      omega
    · exact ⟨_, hupd, rfl, rfl, rfl, rfl⟩
  · have hupd := dbSelect_updateAll db name
      (fun r => { r with fetchedAt := now - hoursToMs 24, updatedAt := now })
      (fun _ => rfl)
    rw [hsel] at hupd
    simp only [Option.map_some'] at hupd
    unfold invalidateCache
    dsimp only
    constructor
    · unfold shouldRefreshCluster
      rw [hupd]
      dsimp only
      rw [if_neg hstat, if_neg (fun hc => absurd hc.2 (not_le.mpr (herr hc.1)))]
      simp only [decide_eq_true_eq]
      omega
    · exact ⟨_, hupd, rfl, rfl, rfl, rfl⟩

/-- C4 witness: the amended theorem evaluated on a concrete store holding
a fresh healthy record, with the default TTL. -/
theorem C4_witness :
    (shouldRefreshCluster (invalidateCache [recStaleOk] t7h (some "cinder"))
        t7h "cinder" none = true ∧
      ∃ rec', dbSelect (invalidateCache [recStaleOk] t7h (some "cinder"))
          "cinder" = some rec' ∧
        rec'.rawData = recStaleOk.rawData ∧ rec'.status = recStaleOk.status ∧
        rec'.errorCount = recStaleOk.errorCount ∧
        rec'.fetchedAt = t7h - hoursToMs 24) ∧
    (shouldRefreshCluster (invalidateCache [recStaleOk] t7h none)
        t7h "cinder" none = true ∧
      ∃ rec', dbSelect (invalidateCache [recStaleOk] t7h none)
          "cinder" = some rec' ∧
        rec'.rawData = recStaleOk.rawData ∧ rec'.status = recStaleOk.status ∧
        rec'.errorCount = recStaleOk.errorCount ∧
        rec'.fetchedAt = t7h - hoursToMs 24) :=
  C4_invalidation [recStaleOk] t7h "cinder" none recStaleOk (by decide)
    (by decide) (by decide) (by decide)

/-! ## Path lemmas for the Refresh Orchestrator -/

/-- The fetcher on a non-empty member list with the token present and a
successful network exchange. -/
theorem fetchCluster_success {repoNames : List String}
    (net : NetOracle) (name : String) {repos : List RepoData}
    {rl : Option Nat} (hne : repoNames.isEmpty = false)
    (hnet : net name = FetchOutcome.success repos rl) :
    fetchClusterFromGitHub true net name repoNames =
      Except.ok ({ repos := some repos, error := none },
        [Event.fetchCall name]) := by
  unfold fetchClusterFromGitHub
  simp [hne, hnet]

/-- The fetcher on a non-empty member list with the token present and a
failing network exchange. -/
theorem fetchCluster_failure {repoNames : List String}
    (net : NetOracle) (name : String) {e : String}
    (hne : repoNames.isEmpty = false)
    (hnet : net name = FetchOutcome.failure e) :
    fetchClusterFromGitHub true net name repoNames =
      Except.ok ({ repos := none, error := some e },
        [Event.fetchCall name]) := by
  unfold fetchClusterFromGitHub
  simp [hne, hnet]

/-- With no record and a known cluster, a non-forced request takes the
MISS path. -/
theorem runClusterBody_miss (cfg : RegistryConfig) (tok : Bool)
    (net : NetOracle) (setFail : Option String) (db : Store) (now : Int)
    (name : String) (repoNames : List String)
    (hcfg : lookupCfg cfg name = some repoNames)
    (hnone : dbSelect db name = none) :
    runClusterBody cfg tok net setFail db now name false =
      runClusterBody.runMissPath cfg tok net setFail db now name repoNames := by
  have hcached : getCachedRepositories db name = none := by
    unfold getCachedRepositories
    rw [hnone]
  unfold runClusterBody
  rw [hcfg]
  dsimp only
  rw [hcached]

/-- A forced request takes the MISS path regardless of the record. -/
theorem runClusterBody_force (cfg : RegistryConfig) (tok : Bool)
    (net : NetOracle) (setFail : Option String) (db : Store) (now : Int)
    (name : String) (repoNames : List String)
    (hcfg : lookupCfg cfg name = some repoNames) :
    runClusterBody cfg tok net setFail db now name true =
      runClusterBody.runMissPath cfg tok net setFail db now name repoNames := by
  unfold runClusterBody
  rw [hcfg]
  dsimp only
  cases getCachedRepositories db name <;> simp

/-- With a record present and the freshness check negative, a non-forced
request is served from the cache as fresh. -/
theorem runClusterBody_fresh (cfg : RegistryConfig) (tok : Bool)
    (net : NetOracle) (setFail : Option String) (db : Store) (now : Int)
    (name : String) (repoNames : List String) (rec : CacheRecord)
    (hcfg : lookupCfg cfg name = some repoNames)
    (hsel : dbSelect db name = some rec)
    (hnr : shouldRefreshCluster db now name none = false) :
    runClusterBody cfg tok net setFail db now name false =
      (Except.ok
          { repos := rec.rawData, cached := true, isStale := false,
            error := none },
        db, [], []) := by
  have hcached : getCachedRepositories db name = some rec.rawData := by
    unfold getCachedRepositories
    rw [hsel]
  unfold runClusterBody
  rw [hcfg]
  dsimp only
  rw [hcached, hnr]
  simp

/-- With a record present and the freshness check positive, a non-forced
request is served from the cache as stale and spawns one background
refresh task. -/
theorem runClusterBody_stale (cfg : RegistryConfig) (tok : Bool)
    (net : NetOracle) (setFail : Option String) (db : Store) (now : Int)
    (name : String) (repoNames : List String) (rec : CacheRecord)
    (hcfg : lookupCfg cfg name = some repoNames)
    (hsel : dbSelect db name = some rec)
    (hnr : shouldRefreshCluster db now name none = true) :
    runClusterBody cfg tok net setFail db now name false =
      (Except.ok
          { repos := rec.rawData, cached := true, isStale := true,
            error := none },
        db, [{ clusterName := name, repoNames := repoNames }], []) := by
  have hcached : getCachedRepositories db name = some rec.rawData := by
    unfold getCachedRepositories
    rw [hsel]
  unfold runClusterBody
  rw [hcfg]
  dsimp only
  rw [hcached, hnr]
  simp

/-- The MISS path on a successful fetch (token present, non-empty member
list, store write succeeding): `startCacheRefresh`, one network call,
then the upsert of the fresh data. -/
theorem runMissPath_success (cfg : RegistryConfig) (net : NetOracle)
    (db : Store) (now : Int) (name : String) (repoNames : List String)
    {repos : List RepoData} {rl : Option Nat}
    (hne : repoNames.isEmpty = false)
    (hnet : net name = FetchOutcome.success repos rl) :
    runClusterBody.runMissPath cfg true net none db now name repoNames =
      (Except.ok
          { repos := repos, cached := false, isStale := false,
            error := none },
        setCachedRepositories (startCacheRefresh db name) now name repos none,
        [], [Event.markRefreshing name, Event.fetchCall name]) := by
  unfold runClusterBody.runMissPath
  rw [fetchCluster_success net name hne hnet]
  rfl

/-- The MISS path on a failing fetch with no record to fall back to. -/
theorem runMissPath_failure_noRecord (cfg : RegistryConfig)
    (setFail : Option String) (net : NetOracle) (db : Store) (now : Int)
    (name : String) (repoNames : List String) {e : String}
    (hne : repoNames.isEmpty = false)
    (hnet : net name = FetchOutcome.failure e)
    (hnone : dbSelect db name = none) :
    runClusterBody.runMissPath cfg true net setFail db now name repoNames =
      (Except.ok
          { repos := [], cached := false, isStale := false,
            error := some e },
        startCacheRefresh db name,
        [], [Event.markRefreshing name, Event.fetchCall name]) := by
  have hstart : dbSelect (startCacheRefresh db name) name = none := by
    unfold startCacheRefresh
    rw [dbSelect_updateCluster db name name
      (fun r => { r with status := Status.refreshing }) (fun _ => rfl), hnone]
    rfl
  have hfall : getStaleDataFallback (startCacheRefresh db name) name = none := by
    unfold getStaleDataFallback
    rw [hstart]
  have herr : recordCacheError (startCacheRefresh db name) now name e =
      startCacheRefresh db name := by
    unfold recordCacheError
    rw [hstart]
  unfold runClusterBody.runMissPath
  rw [fetchCluster_failure net name hne hnet]
  dsimp only
  rw [hfall, herr]
  rfl

/-- The MISS path on a failing fetch with a record present: the stale
payload is served with the error attached, and the failure is recorded. -/
theorem runMissPath_failure_record (cfg : RegistryConfig)
    (setFail : Option String) (net : NetOracle) (db : Store) (now : Int)
    (name : String) (repoNames : List String) (rec : CacheRecord)
    {e : String} (hne : repoNames.isEmpty = false)
    (hnet : net name = FetchOutcome.failure e)
    (hsel : dbSelect db name = some rec) :
    runClusterBody.runMissPath cfg true net setFail db now name repoNames =
      (Except.ok
          { repos := rec.rawData, cached := true, isStale := true,
            error := some e },
        recordCacheError (startCacheRefresh db name) now name e,
        [], [Event.markRefreshing name, Event.fetchCall name]) := by
  have hname := dbSelect_clusterName hsel
  have hstart : dbSelect (startCacheRefresh db name) name =
      some { rec with status := Status.refreshing } := by
    unfold startCacheRefresh
    rw [dbSelect_updateCluster db name name
      (fun r => { r with status := Status.refreshing }) (fun _ => rfl), hsel]
    simp [hname]
  have hfall : getStaleDataFallback (startCacheRefresh db name) name =
      some rec.rawData := by
    unfold getStaleDataFallback
    rw [hstart]
  unfold runClusterBody.runMissPath
  rw [fetchCluster_failure net name hne hnet]
  dsimp only
  rw [hfall]
  rfl

/-- The wrapper on a body that completes normally. -/
theorem getRepositoriesByCluster_ok (cfg : RegistryConfig) (tok : Bool)
    (net : NetOracle) (setFail : Option String) (db : Store) (now : Int)
    (name : String) (force : Bool) (r : ClusterResult) (db' : Store)
    (bg : List BgTask) (evs : List Event)
    (hbody : runClusterBody cfg tok net setFail db now name force =
      (Except.ok r, db', bg, evs)) :
    getRepositoriesByCluster cfg tok net setFail db now name force =
      { result := r, db := db', bg := bg
        events := Event.orchCall name :: evs } := by
  unfold getRepositoriesByCluster
  rw [hbody]

/-- The wrapper on a body that throws: the exception becomes the `error`
field of an empty result. -/
theorem getRepositoriesByCluster_err (cfg : RegistryConfig) (tok : Bool)
    (net : NetOracle) (setFail : Option String) (db : Store) (now : Int)
    (name : String) (force : Bool) (e : String) (db' : Store)
    (bg : List BgTask) (evs : List Event)
    (hbody : runClusterBody cfg tok net setFail db now name force =
      (Except.error e, db', bg, evs)) :
    getRepositoriesByCluster cfg tok net setFail db now name force =
      { result :=
          { repos := [], cached := false, isStale := false,
            error := some e }
        db := db'
        bg := bg
        events := Event.orchCall name :: evs } := by
  unfold getRepositoriesByCluster
  rw [hbody]

/-! ## C9 — record creation on first miss -/

/-- C9 counterexample: first MISS-path request for a configured cluster
whose fetch fails.  The store stays empty — no `CacheRecord` is created
(`startCacheRefresh` is a plain update that matches nothing, and
`recordCacheError` returns early when no row exists), contradicting
"including when that first fetch attempt fails". -/
theorem C9_counterexample :
    (getRepositoriesByCluster cfgCinder true netFail none [] t7h "cinder"
        false).db = [] ∧
    dbSelect (getRepositoriesByCluster cfgCinder true netFail none [] t7h
        "cinder" false).db "cinder" = none ∧
    (getRepositoriesByCluster cfgCinder true netFail none [] t7h "cinder"
        false).result =
      { repos := [], cached := false, isStale := false,
        error := some "GitHub API returned 500: Internal Server Error" } := by
  decide

/-- C9 (amended): on the first cache miss for a configured cluster with a
non-empty member list, a `CacheRecord` is created via the atomic upsert of
`setCachedRepositories` when the fetch succeeds (the record exists
afterwards, fresh and healthy); when that first fetch fails, no record is
created — the store still has no row for the key. -/
theorem C9_record_creation (cfg : RegistryConfig) (net : NetOracle)
    (db : Store) (now : Int) (name : String) (repoNames : List String)
    (hnone : dbSelect db name = none)
    (hcfg : lookupCfg cfg name = some repoNames)
    (hne : repoNames.isEmpty = false) :
    (∀ repos rl, net name = FetchOutcome.success repos rl →
      ∃ rec, dbSelect (getRepositoriesByCluster cfg true net none db now name
          false).db name = some rec ∧
        rec.status = Status.ok ∧ rec.fetchedAt = now ∧ rec.rawData = repos) ∧
    (∀ e, net name = FetchOutcome.failure e →
      dbSelect (getRepositoriesByCluster cfg true net none db now name
          false).db name = none) := by
  have hstart : dbSelect (startCacheRefresh db name) name = none := by
    unfold startCacheRefresh
    rw [dbSelect_updateCluster db name name
      (fun r => { r with status := Status.refreshing }) (fun _ => rfl), hnone]
    rfl
  constructor
  · intro repos rl hnet
    have hbody := (runClusterBody_miss cfg true net none db now name repoNames
      hcfg hnone).trans (runMissPath_success cfg net db now name repoNames
        hne hnet)
    have hset : dbSelect (setCachedRepositories (startCacheRefresh db name)
        now name repos none) name = some
        { clusterName := name, repoNames := repos.map (fun r => r.name),
          rawData := repos, fetchedAt := now,
          expiresAt := now + hoursToMs CACHE_TTL_HOURS, status := Status.ok,
          lastError := none, errorCount := 0, updatedAt := now } := by
      unfold setCachedRepositories
      dsimp only
      exact dbSelect_upsertCluster_self hstart rfl
    rw [getRepositoriesByCluster_ok cfg true net none db now name false
      _ _ _ _ hbody]
    exact ⟨_, hset, rfl, rfl, rfl⟩
  · intro e hnet
    have hbody := (runClusterBody_miss cfg true net none db now name repoNames
      hcfg hnone).trans (runMissPath_failure_noRecord cfg none net db now name
        repoNames hne hnet hnone)
    rw [getRepositoriesByCluster_ok cfg true net none db now name false
      _ _ _ _ hbody]
    exact hstart

/-- C9 witness: the success half of the theorem evaluated on an initially
empty store. -/
theorem C9_witness :
    ∃ rec, dbSelect (getRepositoriesByCluster cfgCinder true netOk none []
        t7h "cinder" false).db "cinder" = some rec ∧
      rec.status = Status.ok ∧ rec.fetchedAt = t7h ∧ rec.rawData = [repoB] :=
  (C9_record_creation cfgCinder netOk [] t7h "cinder" ["r1"] (by decide)
    (by decide) (by decide)).1 [repoB] (some 4999) rfl

/-! ## C7 — user-visible failure behaviour -/

/-- C7: for a known cluster (non-empty member list, token present) whose
network fetch fails, the request never surfaces an exception, the empty
`{repos: [], cached: false, isStale: false, error}` result is produced
exactly when no record exists (cache miss, so the stale fallback is
empty), and whenever a record exists the caller receives the previously
cached payload with `cached = true` — with `isStale = true` in every
scenario in which a fetch was actually triggered (forced refresh, or a
record the freshness check reports stale). -/
theorem C7_failure_surface (cfg : RegistryConfig) (net : NetOracle)
    (setFail : Option String) (db : Store) (now : Int) (name : String)
    (repoNames : List String) (e : String) (force : Bool)
    (hcfg : lookupCfg cfg name = some repoNames)
    (hne : repoNames.isEmpty = false)
    (hnet : net name = FetchOutcome.failure e) :
    (runClusterBody cfg true net setFail db now name force).1.isOk = true ∧
    (dbSelect db name = none →
      (getRepositoriesByCluster cfg true net setFail db now name
          force).result =
        { repos := [], cached := false, isStale := false,
          error := some e }) ∧
    (∀ rec, dbSelect db name = some rec →
      (getRepositoriesByCluster cfg true net setFail db now name
          force).result.repos = rec.rawData ∧
      (getRepositoriesByCluster cfg true net setFail db now name
          force).result.cached = true ∧
      (force = true →
        (getRepositoriesByCluster cfg true net setFail db now name
            force).result.isStale = true ∧
        (getRepositoriesByCluster cfg true net setFail db now name
            force).result.error = some e) ∧
      (shouldRefreshCluster db now name none = true →
        (getRepositoriesByCluster cfg true net setFail db now name
            force).result.isStale = true)) := by
  cases hdb : dbSelect db name with
  | none =>
    have hbody : runClusterBody cfg true net setFail db now name force =
        (Except.ok
            { repos := [], cached := false, isStale := false,
              error := some e },
          startCacheRefresh db name, [],
          [Event.markRefreshing name, Event.fetchCall name]) := by
      cases force with
      | true =>
        exact (runClusterBody_force cfg true net setFail db now name repoNames
          hcfg).trans (runMissPath_failure_noRecord cfg setFail net db now
            name repoNames hne hnet hdb)
      | false =>
        exact (runClusterBody_miss cfg true net setFail db now name repoNames
          hcfg hdb).trans (runMissPath_failure_noRecord cfg setFail net db now
            name repoNames hne hnet hdb)
    refine ⟨by rw [hbody]; rfl, ?_, ?_⟩
    · intro _
      rw [getRepositoriesByCluster_ok cfg true net setFail db now name force
        _ _ _ _ hbody]
    · intro rec hrec
      exact Option.noConfusion hrec
  | some rec =>
    cases force with
    | true =>
      have hbody := (runClusterBody_force cfg true net setFail db now name
        repoNames hcfg).trans (runMissPath_failure_record cfg setFail net db
          now name repoNames rec hne hnet hdb)
      refine ⟨by rw [hbody]; rfl, ?_, ?_⟩
      · intro hco
        exact Option.noConfusion hco
      · intro rec' hrec'
        have hre : rec' = rec := (Option.some.inj hrec').symm
        subst hre
        rw [getRepositoriesByCluster_ok cfg true net setFail db now name true
          _ _ _ _ hbody]
        exact ⟨rfl, rfl, fun _ => ⟨rfl, rfl⟩, fun _ => rfl⟩
    | false =>
      cases hnr : shouldRefreshCluster db now name none with
      | true =>
        have hbody := runClusterBody_stale cfg true net setFail db now name
          repoNames rec hcfg hdb hnr
        refine ⟨by rw [hbody]; rfl, ?_, ?_⟩
        · intro hco
          exact Option.noConfusion hco
        · intro rec' hrec'
          have hre : rec' = rec := (Option.some.inj hrec').symm
          subst hre
          rw [getRepositoriesByCluster_ok cfg true net setFail db now name
            false _ _ _ _ hbody]
          exact ⟨rfl, rfl, fun hco => absurd hco (by decide), fun _ => rfl⟩
      | false =>
        have hbody := runClusterBody_fresh cfg true net setFail db now name
          repoNames rec hcfg hdb hnr
        refine ⟨by rw [hbody]; rfl, ?_, ?_⟩
        · intro hco
          exact Option.noConfusion hco
        · intro rec' hrec'
          have hre : rec' = rec := (Option.some.inj hrec').symm
          subst hre
          rw [getRepositoriesByCluster_ok cfg true net setFail db now name
            false _ _ _ _ hbody]
          exact ⟨rfl, rfl, fun hco => absurd hco (by decide),
            fun hco => absurd hco (by decide)⟩

/-- C7 witness: forced refresh of a cluster with a cached record while the
upstream fails — the caller gets the stale payload, flagged stale, with
the error attached and no exception. -/
theorem C7_witness :
    (runClusterBody cfgCinder true netFail none [recStaleOk] t7h "cinder"
        true).1.isOk = true ∧
    (getRepositoriesByCluster cfgCinder true netFail none [recStaleOk] t7h
        "cinder" true).result.repos = recStaleOk.rawData ∧
    (getRepositoriesByCluster cfgCinder true netFail none [recStaleOk] t7h
        "cinder" true).result.cached = true ∧
    (getRepositoriesByCluster cfgCinder true netFail none [recStaleOk] t7h
        "cinder" true).result.isStale = true ∧
    (getRepositoriesByCluster cfgCinder true netFail none [recStaleOk] t7h
        "cinder" true).result.error =
      some "GitHub API returned 500: Internal Server Error" := by
  have h := C7_failure_surface cfgCinder netFail none [recStaleOk] t7h
    "cinder" ["r1"]
    "GitHub API returned 500: Internal Server Error" true (by decide)
    (by decide) rfl
  have hr := h.2.2 recStaleOk (by decide)
  exact ⟨h.1, hr.1, hr.2.1, (hr.2.2.1 rfl).1, (hr.2.2.1 rfl).2⟩

/-! ## C10 — totality of the caller-facing query -/

/-- C10: for every configuration, store state and oracle outcome
(including the token-missing throw inside the fetcher and the database
throw inside `setCachedRepositories`), `getRepositoriesByCluster` returns
a `ClusterResult` — when the body completes, that body's result verbatim,
and when the body throws, the exception converted into the `error` field
of `{repos: [], cached: false, isStale: false}`; no exception escapes. -/
theorem C10_totality (cfg : RegistryConfig) (tok : Bool) (net : NetOracle)
    (setFail : Option String) (db : Store) (now : Int) (name : String)
    (force : Bool) :
    (∀ e, (runClusterBody cfg tok net setFail db now name force).1 =
        Except.error e →
      (getRepositoriesByCluster cfg tok net setFail db now name
          force).result =
        { repos := [], cached := false, isStale := false,
          error := some e }) ∧
    (∀ r, (runClusterBody cfg tok net setFail db now name force).1 =
        Except.ok r →
      (getRepositoriesByCluster cfg tok net setFail db now name
          force).result = r) := by
  rcases hB : runClusterBody cfg tok net setFail db now name force with
    ⟨res, db', bg, evs⟩
  cases res with
  | ok r0 =>
    constructor
    · intro e he
      exact Except.noConfusion he
    · intro r hr
      have hr0 : r0 = r := Except.ok.inj hr
      subst hr0
      rw [getRepositoriesByCluster_ok cfg tok net setFail db now name force
        r0 db' bg evs hB]
  | error e0 =>
    constructor
    · intro e he
      have he0 : e0 = e := Except.error.inj he
      subst he0
      rw [getRepositoriesByCluster_err cfg tok net setFail db now name force
        e0 db' bg evs hB]
    · intro r hr
      exact Except.noConfusion hr

/-- C10 witness: with `GITHUB_TOKEN` unset and a forced refresh, the
fetcher's throw is converted into the error field of an empty result. -/
theorem C10_witness :
    (getRepositoriesByCluster cfgCinder false netOk none [recStaleOk] t7h
        "cinder" true).result =
      { repos := [], cached := false, isStale := false,
        error := some "GITHUB_TOKEN environment variable is not set" } :=
  (C10_totality cfgCinder false netOk none [recStaleOk] t7h "cinder" true).1
    "GITHUB_TOKEN environment variable is not set" rfl

/-! ## C1 — thundering-herd guard on the STALE path -/

/-- C1: the code-bug evidence.  A store holds one healthy record for
`cinder` whose data is 7 hours old (TTL 6h, status `'ok'`), and two
STALE-path requests for `cinder` arrive in the same scheduling tick: each
is served the cached payload as stale (so each spawns a background
refresh), the tick issues two upstream fetch calls, and no
`status = 'refreshing'` write ever happens — `refreshInBackground` never
calls `startCacheRefresh`, so the guard the claim describes is absent and
the second trigger is not deduplicated. -/
theorem C1_code_bug :
    (getRepositoriesByCluster cfgCinder true netOk none [recStaleOk] t7h
        "cinder" false).result =
      { repos := [repoA], cached := true, isStale := true, error := none } ∧
    (runTick cfgCinder true netOk none t7h [recStaleOk]
        ["cinder", "cinder"]).2.count (Event.fetchCall "cinder") = 2 ∧
    (runTick cfgCinder true netOk none t7h [recStaleOk]
        ["cinder", "cinder"]).2.count (Event.markRefreshing "cinder") = 0 := by
  decide

/-! ## C5 — no batch key deduplication -/

/-- Registry configuration with the clusters `a` and `b`. -/
def cfgAB : RegistryConfig := [("a", ["r1"]), ("b", ["r2"])]

/-- C5 counterexample: the batch `["a", "a", "b"]` routes `"a"` through
the Refresh Orchestrator twice (not once), and the two `"a"` entries are
not identical — the first is a fresh fetch (`cached = false`), the second
is served from the cache the first populated (`cached = true`). -/
theorem C5_counterexample :
    (getRepositoriesBatchRemote cfgAB true netOk none [] t7h
        ["a", "a", "b"]).events.count (Event.orchCall "a") = 2 ∧
    (getRepositoriesBatchRemote cfgAB true netOk none [] t7h
        ["a", "a", "b"]).clusters.map (fun en => (en.clusterName, en.cached)) =
      [("a", false), ("a", true), ("b", false)] := by
  decide

/-- The fetcher's event list is either empty (short-circuit) or a single
network call. -/
theorem fetchCluster_events (tok : Bool) (net : NetOracle) (name : String)
    (repoNames : List String) (fr : FetchResult) (evs : List Event)
    (h : fetchClusterFromGitHub tok net name repoNames =
      Except.ok (fr, evs)) :
    evs = [] ∨ evs = [Event.fetchCall name] := by
  unfold fetchClusterFromGitHub at h
  split at h
  · exact Except.noConfusion h
  · split at h
    · exact Or.inl (congrArg Prod.snd (Except.ok.inj h)).symm
    · split at h
      · exact Or.inr (congrArg Prod.snd (Except.ok.inj h)).symm
      · exact Or.inr (congrArg Prod.snd (Except.ok.inj h)).symm

/-- The MISS path emits no orchestrator-invocation event (only the
wrapper does). -/
theorem runMissPath_no_orchCall (cfg : RegistryConfig) (tok : Bool)
    (net : NetOracle) (setFail : Option String) (db : Store) (now : Int)
    (name : String) (repoNames : List String) (m : String) :
    (runClusterBody.runMissPath cfg tok net setFail db now name
        repoNames).2.2.2.count (Event.orchCall m) = 0 := by
  unfold runClusterBody.runMissPath
  cases hf : fetchClusterFromGitHub tok net name repoNames with
  | error e => simp [List.count_cons, List.count_nil]
  | ok pair =>
    rcases pair with ⟨fr, evs⟩
    have hevs : evs.count (Event.orchCall m) = 0 := by
      rcases fetchCluster_events tok net name repoNames fr evs hf with h | h <;>
        subst h <;> simp [List.count_cons, List.count_nil]
    dsimp only
    cases fr.error with
    | some e =>
      cases getStaleDataFallback (startCacheRefresh db name) name <;>
        simp [List.count_append, List.count_cons, hevs]
    | none =>
      cases fr.repos with
      | none => simp [List.count_append, List.count_cons, hevs]
      | some repos =>
        cases setFail <;> simp [List.count_append, List.count_cons, hevs]

/-- The orchestrator body emits no orchestrator-invocation event. -/
theorem runClusterBody_no_orchCall (cfg : RegistryConfig) (tok : Bool)
    (net : NetOracle) (setFail : Option String) (db : Store) (now : Int)
    (name : String) (force : Bool) (m : String) :
    (runClusterBody cfg tok net setFail db now name
        force).2.2.2.count (Event.orchCall m) = 0 := by
  unfold runClusterBody
  cases lookupCfg cfg name with
  | none => simp [List.count_nil]
  | some repoNames =>
    dsimp only
    cases getCachedRepositories db name with
    | none =>
      exact runMissPath_no_orchCall cfg tok net setFail db now name
        repoNames m
    | some c =>
      cases shouldRefreshCluster db now name none <;> cases force <;>
        simp [runMissPath_no_orchCall cfg tok net setFail db now name
          repoNames m, List.count_nil]

/-- Each orchestrator invocation contributes exactly one
orchestrator-invocation event, carrying its own cluster name. -/
theorem getRepositoriesByCluster_orchCall_count (cfg : RegistryConfig)
    (tok : Bool) (net : NetOracle) (setFail : Option String) (db : Store)
    (now : Int) (name : String) (force : Bool) (m : String) :
    (getRepositoriesByCluster cfg tok net setFail db now name
        force).events.count (Event.orchCall m) =
      if name == m then 1 else 0 := by
  have h0 := runClusterBody_no_orchCall cfg tok net setFail db now name force m
  unfold getRepositoriesByCluster
  rcases hB : runClusterBody cfg tok net setFail db now name force with
    ⟨res, db', bg, evs⟩
  rw [hB] at h0
  cases res <;> simp [List.count_cons, h0]

/-- Orchestrator-invocation count across the remote batch fold: one per
occurrence of the name in the batch list. -/
theorem batchRemote_fold_orchCall_count (cfg : RegistryConfig) (tok : Bool)
    (net : NetOracle) (setFail : Option String) (now : Int) (m : String) :
    ∀ (names : List String)
      (acc : List ResolveEntry × Store × List BgTask × List Event),
      (names.foldl (batchRemoteStep cfg tok net setFail now)
          acc).2.2.2.count (Event.orchCall m) =
        acc.2.2.2.count (Event.orchCall m) + names.count m := by
  intro names
  induction names with
  | nil =>
    intro acc
    simp [List.count_nil]
  | cons n ns ih =>
    intro acc
    rw [List.foldl_cons, ih]
    unfold batchRemoteStep resolveCluster
    dsimp only
    rw [List.count_append,
      getRepositoriesByCluster_orchCall_count cfg tok net setFail acc.2.1 now
        n false m, List.count_cons]
    by_cases hm : (n == m) = true <;> simp [hm] <;> omega

/-- Orchestrator-invocation count across the `fetchRepositoriesBatch`
fold: one per occurrence of the name in the batch list. -/
theorem fetchBatch_fold_orchCall_count (cfg : RegistryConfig) (tok : Bool)
    (net : NetOracle) (setFail : Option String) (now : Int) (m : String) :
    ∀ (names : List String)
      (acc : List (String × List RepoData) × Store × List BgTask × List Event),
      (names.foldl (fetchBatchStep cfg tok net setFail now)
          acc).2.2.2.count (Event.orchCall m) =
        acc.2.2.2.count (Event.orchCall m) + names.count m := by
  intro names
  induction names with
  | nil =>
    intro acc
    simp [List.count_nil]
  | cons n ns ih =>
    intro acc
    rw [List.foldl_cons, ih]
    unfold fetchBatchStep
    dsimp only
    rw [List.count_append,
      getRepositoriesByCluster_orchCall_count cfg tok net setFail acc.2.1 now
        n false m, List.count_cons]
    by_cases hm : (n == m) = true <;> simp [hm] <;> omega

/-- C5 (amended): neither batch entry point deduplicates repeated cluster
keys — for every batch request list, each occurrence of a key is routed
through the Refresh Orchestrator exactly once (so `["a","a","b"]` routes
`"a"` twice), in both `getRepositoriesBatchRemote` and
`fetchRepositoriesBatch`. -/
theorem C5_batch_occurrence_routing (cfg : RegistryConfig) (tok : Bool)
    (net : NetOracle) (setFail : Option String) (db : Store) (now : Int)
    (names : List String) (name : String) :
    (getRepositoriesBatchRemote cfg tok net setFail db now
        names).events.count (Event.orchCall name) = names.count name ∧
    (fetchRepositoriesBatch cfg tok net setFail db now
        names).2.2.2.count (Event.orchCall name) = names.count name := by
  constructor
  · unfold getRepositoriesBatchRemote
    dsimp only
    rw [batchRemote_fold_orchCall_count cfg tok net setFail now name names
      ([], db, [], [])]
    simp [List.count_nil]
  · unfold fetchRepositoriesBatch
    rw [fetchBatch_fold_orchCall_count cfg tok net setFail now name names
      ([], db, [], [])]
    simp [List.count_nil]
